import Mathlib

/-! Verification of the API client in `src/services/api.ts` and of the toggle
handler of the list screen in `app/home/todo-list/index.tsx`, as a shallow
embedding: JSON values are an inductive type, the outcome of the platform
function JSON.parse is carried on the response record, and a thrown error
becomes `Except.error` carrying the message string of the error. -/

/-- JSON values as produced by the platform function JSON.parse; numbers are
modelled as integers, which covers every value the claims mention. -/
inductive Json where
  | null : Json
  | bool : Bool → Json
  | num : Int → Json
  | str : String → Json
  | arr : List Json → Json
  | obj : List (String × Json) → Json

/-- JSON string escaping as performed by JSON.stringify: quote, backslash
and the common control characters; all other characters pass through. -/
def jsonEscape (s : String) : String :=
  s.data.foldl (fun acc c =>
    acc ++ (if c = '\"' then "\\\""
      else if c = '\\' then "\\\\"
      else if c = '\n' then "\\n"
      else if c = '\r' then "\\r"
      else if c = '\t' then "\\t"
      else String.singleton c)) ""

mutual

/-- JSON.stringify on a parsed JSON value. -/
def Json.stringify : Json → String
  | .null => "null"
  | .bool true => "true"
  | .bool false => "false"
  | .num n => n.repr
  | .str s => "\"" ++ jsonEscape s ++ "\""
  | .arr xs => "[" ++ Json.stringifyItems xs ++ "]"
  | .obj fs => "\x7b" ++ Json.stringifyFields fs ++ "\x7d"

/-- Comma-separated serialization of the items of a JSON array. -/
def Json.stringifyItems : List Json → String
  | [] => ""
  | [x] => x.stringify
  | x :: xs => x.stringify ++ "," ++ Json.stringifyItems xs

/-- Comma-separated serialization of the fields of a JSON object. -/
def Json.stringifyFields : List (String × Json) → String
  | [] => ""
  | [(k, v)] => "\"" ++ jsonEscape k ++ "\":" ++ v.stringify
  | (k, v) :: fs =>
      "\"" ++ jsonEscape k ++ "\":" ++ v.stringify ++ "," ++ Json.stringifyFields fs

end

/-- JavaScript truthiness of a JSON value. -/
def Json.truthy : Json → Bool
  | .null => false
  | .bool b => b
  | .num n => n != 0
  | .str s => s != ""
  | .arr _ => true
  | .obj _ => true

/-- JavaScript property read `v.k` on a non-null JSON value: key lookup on an
object, undefined (none) on every other value. A read on JSON null throws a
TypeError instead; every call site that can see a null handles that case
separately. -/
def Json.getField : Json → String → Option Json
  | .obj fs, k => fs.lookup k
  | _, _ => none

/-- JavaScript `a || b` over two possibly-undefined JSON values: the left
value when it is defined and truthy, otherwise the right one. -/
def jsOr (a b : Option Json) : Option Json :=
  match a with
  | some v => if v.truthy then some v else b
  | none => b

/-- An HTTP response as observed by api.handleResponse: the status line
data, the body text, and the outcome of JSON.parse on that text (none when
parsing throws). -/
structure Response where
  status : Nat
  statusText : String
  bodyText : String
  bodyJson : Option Json

/-- The fetch Response.ok flag: status in the inclusive range 200 to 299. -/
def Response.ok (r : Response) : Bool :=
  decide (200 ≤ r.status) && decide (r.status ≤ 299)

/-- Substring containment over character lists: the pattern occurs as a
prefix of some suffix of the text. -/
def charsContain (pat : List Char) : List Char → Bool
  | [] => pat.isEmpty
  | c :: cs => pat.isPrefixOf (c :: cs) || charsContain pat cs

/-- The errorText.includes check for the fixed HTML marker used by the
catch branch of handleResponse. -/
def containsDoctypeMarker (s : String) : Bool :=
  charsContain ("<!DOCTYPE html>".data) s.data

/-- The conversion `typeof rawError === 'object' ? JSON.stringify(rawError)
: String(rawError)` applied to the extracted error value: typeof treats
null, arrays and objects as object (JSON.stringify(null) is "null"), every
other value goes through String(). -/
def rawErrorText : Json → String
  | .obj gs => Json.stringify (.obj gs)
  | .arr xs => Json.stringify (.arr xs)
  | .null => "null"
  | .str s => s
  | .num n => n.repr
  | .bool b => if b then "true" else "false"

/-- The errorText value that api.handleResponse computes for a non-2xx
response: inside the try block, `jsonError.message || jsonError.error`
converted through rawErrorText when truthy; in the catch branch (a parse
failure, or the TypeError raised by reading .message of a parsed null) the
HTML heuristic or the raw body text. -/
def errorTextOf (r : Response) : String :=
  match r.bodyJson with
  | some j =>
    match j with
    | .null =>
        if containsDoctypeMarker r.bodyText then s!"Error del servidor ({r.status})"
        else r.bodyText
    | _ =>
      match jsOr (j.getField ("message")) (j.getField ("error")) with
      | some v => if v.truthy then rawErrorText v else r.bodyText
      | none => r.bodyText
  | none =>
      if containsDoctypeMarker r.bodyText then s!"Error del servidor ({r.status})"
      else r.bodyText

/-- The message of the Error that api.handleResponse throws on a non-2xx
response: the computed errorText, or the status fallback when it is empty. -/
def thrownMessage (r : Response) : String :=
  let e := errorTextOf r
  if e = "" then s!"Error {r.status}: {r.statusText}" else e

/-- api.handleResponse: on a non-2xx response it throws (Except.error) the
mapped message; on 204 it returns null (none) without touching the body;
otherwise it returns the parsed JSON body, rejecting as res.json() does
when the 2xx body fails to parse. -/
def handleResponse (r : Response) : Except String (Option Json) :=
  if r.ok then
    if r.status = 204 then .ok none
    else
      match r.bodyJson with
      | some j => .ok (some j)
      | none => .error ("SyntaxError: Unexpected end of JSON input")
  else .error (thrownMessage r)

/-- The decoding step of api.getTodos applied to what handleResponse
returned: `json.data && Array.isArray(json.data)` unwraps the envelope, a
bare array is returned directly, any other value yields the empty list —
except that when json is null (a 204, or a JSON-null body) the `json.data`
read throws a TypeError, which the surrounding catch rethrows. -/
def getTodosDecode (j : Option Json) : Except String (List Json) :=
  match j with
  | none => .error ("TypeError: Cannot read properties of null")
  | some .null => .error ("TypeError: Cannot read properties of null")
  | some j =>
    match j.getField ("data") with
    | some (.arr xs) => .ok xs
    | _ =>
      match j with
      | .arr xs => .ok xs
      | _ => .ok []

/-- api.getTodos from the arrival of the response onward: handleResponse
followed by the envelope decoding; the catch block logs and rethrows the
same error, so an error value passes through unchanged. -/
def getTodos (r : Response) : Except String (List Json) :=
  (handleResponse r).bind getTodosDecode

/-- A geolocation capture as supplied to createTodo and updateTodo; the
capture timestamp is optional and, per the code, never forwarded. -/
structure GeoCoords where
  latitude : Int
  longitude : Int
  timestamp : Option Int
deriving DecidableEq

/-- The NewTaskData input of createTodo; every field may be absent. -/
structure NewTaskData where
  title : Option String
  location : Option GeoCoords
  photoUri : Option String
deriving DecidableEq

/-- The location value both createTodo and updateTodo place in their
payloads: latitude and longitude only. -/
def locationPayload (l : GeoCoords) : Json :=
  .obj [("latitude", .num l.latitude), ("longitude", .num l.longitude)]

/-- Whitespace characters for the purposes of String.prototype.trim
(restricted to the ASCII whitespace the inputs here can contain). -/
def isJsWhitespace (c : Char) : Bool :=
  c = ' ' || c = '\t' || c = '\n' || c = '\r' || c = '\x0b' || c = '\x0c'

/-- String.prototype.trim: strip leading and trailing whitespace. -/
def jsTrim (s : String) : String :=
  String.mk (((s.data.dropWhile isJsWhitespace).reverse.dropWhile isJsWhitespace).reverse)

/-- api.createTodo up to the fetch call: the `!data.title?.trim()` guard
(Except.error is the validation error thrown before any network request is
issued) and the payload built from the trimmed title, the conditionally
included location (truthy object) and image (non-empty string photoUri). -/
def createTodo (d : NewTaskData) : Except String (List (String × Json)) :=
  match d.title with
  | none => .error ("El título es obligatorio")
  | some t =>
    if jsTrim t = "" then .error ("El título es obligatorio")
    else
      .ok ([("title", Json.str (jsTrim t))]
        ++ (match d.location with
            | some l => [("location", locationPayload l)]
            | none => [])
        ++ (match d.photoUri with
            | some s => if s = "" then [] else [("image", Json.str s)]
            | none => []))

/-- The changes object accepted by updateTodo. The image field distinguishes
undefined (`none`), explicit null (`some none`) and a string
(`some (some s)`), matching `string | null | undefined`. -/
structure UpdateChanges where
  title : Option String
  completed : Option Bool
  image : Option (Option String)
  location : Option GeoCoords
deriving DecidableEq

/-- The data argument of updateTodo: the legacy boolean shorthand or a
partial changes object. -/
inductive UpdateArg where
  | legacy : Bool → UpdateArg
  | changes : UpdateChanges → UpdateArg
deriving DecidableEq

/-- The payload construction of api.updateTodo: `\x7b completed: data \x7d`
for the legacy boolean, otherwise the sequential `if (field !== undefined)`
assignments (title, completed, image) and the truthiness-guarded location,
in the order the code performs them. -/
def updateTodo (a : UpdateArg) : List (String × Json) :=
  match a with
  | .legacy b => [("completed", Json.bool b)]
  | .changes d =>
    (match d.title with | some t => [("title", Json.str t)] | none => [])
    ++ (match d.completed with | some c => [("completed", Json.bool c)] | none => [])
    ++ (match d.image with
        | some (some s) => [("image", Json.str s)]
        | some none => [("image", Json.null)]
        | none => [])
    ++ (match d.location with | some l => [("location", locationPayload l)] | none => [])

/-- The keys of an outgoing JSON payload, in insertion order. -/
def payloadKeys (p : List (String × Json)) : List String :=
  p.map Prod.fst

/-- The response-handling stage of api.createTodo and api.updateTodo: both
return the handleResponse value directly (their catch rethrows the same
message, which is never empty). -/
def mutationResult (r : Response) : Except String (Option Json) :=
  handleResponse r

/-- The response-handling stage of api.deleteTodo: handleResponse is
awaited and its value discarded. -/
def deleteTodoResult (r : Response) : Except String Unit :=
  (handleResponse r).map (fun _ => ())

/-- A task as held in the state of the list screen (the fields the screen
touches; image stands in for the remaining untouched fields as well). The
source calls this type Task, a name Lean reserves. -/
structure TaskItem where
  id : String
  title : String
  completed : Bool
  image : Option String
deriving DecidableEq

/-- The three task-list states handleToggle moves through: the snapshot
taken before the call, the optimistically mutated state set immediately,
and the state after api.updateTodo resolved or rejected. -/
structure ToggleRun where
  before : List TaskItem
  optimistic : List TaskItem
  final : List TaskItem
deriving DecidableEq

/-- handleToggle in app/home/todo-list/index.tsx: copy the current tasks
into previousTasks, set the optimistic state that flips the completed flag
of the targeted task to `!currentStatus`, await the update, and on failure
restore previousTasks. The updateSucceeds flag stands for whether the
awaited call resolved or rejected. -/
def handleToggle (tasks : List TaskItem) (tid : String) (currentStatus : Bool)
    (updateSucceeds : Bool) : ToggleRun :=
  let previousTasks := tasks
  let optimistic :=
    tasks.map (fun t => if t.id = tid then { t with completed := !currentStatus } else t)
  { before := previousTasks
    optimistic := optimistic
    final := if updateSucceeds then optimistic else previousTasks }

/-- Sanity check: a 404 with a plain-text body throws that text. -/
example :
    handleResponse { status := 404, statusText := "Not Found",
                     bodyText := "missing", bodyJson := none } =
      .error ("missing") := by
  rfl

/-- Sanity check: the empty-body fallback includes the word Error. -/
example :
    handleResponse { status := 500, statusText := "Internal Server Error",
                     bodyText := "", bodyJson := none } =
      .error ("Error 500: Internal Server Error") := by
  rfl

/-- Sanity check: a bare empty array decodes to the empty task list. -/
example :
    getTodos { status := 200, statusText := "OK", bodyText := "[]",
               bodyJson := some (.arr []) } = .ok [] := by
  rfl

/-- Sanity check: the create example of the spec. -/
example :
    createTodo { title := some ("  Buy milk  "), location := none, photoUri := none } =
      .ok [("title", Json.str ("Buy milk"))] := by
  rfl

/-- Helper: Nat.toDigitsCore never discards a nonempty accumulator. -/
theorem toDigitsCore_ne_nil (b : Nat) :
    ∀ (f n : Nat) (l : List Char), l ≠ [] → Nat.toDigitsCore b f n l ≠ [] := by
  intro f
  induction f with
  | zero => intro n l h; simpa [Nat.toDigitsCore] using h
  | succ f ih =>
    intro n l h
    simp only [Nat.toDigitsCore]
    split
    · exact List.cons_ne_nil _ _
    · exact ih _ _ (List.cons_ne_nil _ _)

/-- Helper: the digit list of a natural number is never empty. -/
theorem toDigits_ne_nil (b n : Nat) : Nat.toDigits b n ≠ [] := by
  simp only [Nat.toDigits, Nat.toDigitsCore]
  split
  · exact List.cons_ne_nil _ _
  · exact toDigitsCore_ne_nil b _ _ _ (List.cons_ne_nil _ _)

/-- Helper: Nat.repr never produces the empty string. -/
theorem nat_repr_ne_empty (n : Nat) : Nat.repr n ≠ "" := by
  intro h
  have h2 := congrArg String.data h
  simp only [Nat.repr, List.asString] at h2
  exact toDigits_ne_nil 10 n h2

/-- Helper: Int.repr never produces the empty string, so String() of a JSON
number is never empty. -/
theorem int_repr_ne_empty (n : Int) : Int.repr n ≠ "" := by
  cases n with
  | ofNat m => simpa [Int.repr] using nat_repr_ne_empty m
  | negSucc m =>
    intro h
    have h2 : ('-' :: (Nat.repr (m + 1)).data) = ([] : List Char) := congrArg String.data h
    exact List.cons_ne_nil _ _ h2

/-- Helper: a string whose character data is a cons is not empty. -/
theorem string_ne_empty_of_data_cons {s : String} {c : Char} {l : List Char}
    (h : s.data = c :: l) : s ≠ "" := by
  intro he
  subst he
  exact List.cons_ne_nil c l h.symm

/-- Helper: JSON.stringify of an object is never the empty string. -/
theorem stringify_obj_ne_empty (fs : List (String × Json)) :
    Json.stringify (.obj fs) ≠ "" :=
  string_ne_empty_of_data_cons (c := '\x7b') rfl

/-- Helper: JSON.stringify of an array is never the empty string. -/
theorem stringify_arr_ne_empty (xs : List Json) :
    Json.stringify (.arr xs) ≠ "" :=
  string_ne_empty_of_data_cons (c := '[') rfl

/-- C2 (amended): for every response with status 204, handleResponse
returns null without consulting the body, and the response-handling stages
of createTodo, updateTodo and deleteTodo therefore resolve with no value.
The blanket "any facade operation" of the original claim fails for
getTodos, which throws while reading .data of null (see the
counterexample). -/
theorem handleResponse_204_null_and_mutation_resolution
    (r : Response) (h : r.status = 204) :
    handleResponse r = .ok none ∧
    mutationResult r = .ok none ∧
    deleteTodoResult r = .ok () := by
  cases r with
  | mk status statusText bodyText bodyJson =>
    cases h
    exact ⟨rfl, rfl, rfl⟩

/-- C2 witness: the conjunction instantiated at a concrete 204 response. -/
theorem handleResponse_204_null_and_mutation_resolution_witness :
    handleResponse { status := 204, statusText := "No Content",
                     bodyText := "", bodyJson := none } = .ok none ∧
    mutationResult { status := 204, statusText := "No Content",
                     bodyText := "", bodyJson := none } = .ok none ∧
    deleteTodoResult { status := 204, statusText := "No Content",
                       bodyText := "", bodyJson := none } = .ok () :=
  handleResponse_204_null_and_mutation_resolution _ rfl

/-- C2 counterexample: getTodos is a facade operation, yet on a 204
response it rejects — the code reads .data of the null that handleResponse
returned — instead of resolving with no value as the claim states. -/
theorem getTodos_204_throws_counterexample :
    getTodos { status := 204, statusText := "No Content",
               bodyText := "", bodyJson := none } =
      .error ("TypeError: Cannot read properties of null") := by
  rfl

/-- C4: the legacy boolean form of updateTodo produces exactly the payload
`\x7b completed: b \x7d`: that single key, holding that boolean; in
particular true yields `\x7b completed: true \x7d`. -/
theorem updateTodo_legacy_boolean_payload (b : Bool) :
    updateTodo (.legacy b) = [("completed", Json.bool b)] ∧
    payloadKeys (updateTodo (.legacy b)) = ["completed"] ∧
    updateTodo (.legacy true) = [("completed", Json.bool true)] :=
  ⟨rfl, rfl, rfl⟩

/-- C10: a defined title passes into the updateTodo payload verbatim: the
payload holds exactly the given string, with no trimming applied (compare
createTodo, which stores the trimmed title). -/
theorem updateTodo_title_verbatim (d : UpdateChanges) (t : String)
    (h : d.title = some t) :
    List.lookup ("title") (updateTodo (.changes d)) = some (Json.str t) := by
  obtain ⟨t0, c, i, l⟩ := d
  cases h
  simp [updateTodo, List.lookup]

/-- C10 witness: an untrimmed title is kept untrimmed, on an input where
trimming would have changed it. -/
theorem updateTodo_title_verbatim_witness :
    List.lookup ("title")
        (updateTodo (.changes { title := some ("  x  "), completed := none,
                                image := none, location := none })) =
      some (Json.str ("  x  ")) ∧
    jsTrim ("  x  ") ≠ "  x  " :=
  ⟨updateTodo_title_verbatim _ _ rfl, by decide⟩

/-- C3: a missing, empty or whitespace-only title makes createTodo throw
the validation error; in the embedding Except.error is produced by the
guard that runs before the fetch call, so no network request is issued. -/
theorem createTodo_blank_title_validation (d : NewTaskData)
    (h : jsTrim (d.title.getD "") = "") :
    createTodo d = .error ("El título es obligatorio") := by
  obtain ⟨t, l, p⟩ := d
  cases t with
  | none => rfl
  | some t =>
    have h2 : jsTrim t = "" := h
    simp [createTodo, h2]

/-- C3 witness: a whitespace-only title is rejected. -/
theorem createTodo_blank_title_validation_witness :
    createTodo { title := some ("   "), location := none, photoUri := none } =
      .error ("El título es obligatorio") :=
  createTodo_blank_title_validation _ (by decide)

/-- C5: in the object form of updateTodo exactly the defined fields appear
as payload keys; in particular `\x7b title: "x" \x7d` yields a payload whose
only key is title (never completed), and an explicitly supplied image —
including an explicit null — is included, while an undefined one is not. -/
theorem updateTodo_defined_fields_only (d : UpdateChanges) (k : String) :
    (k ∈ payloadKeys (updateTodo (.changes d)) ↔
      (k = "title" ∧ d.title.isSome) ∨ (k = "completed" ∧ d.completed.isSome) ∨
      (k = "image" ∧ d.image.isSome) ∨ (k = "location" ∧ d.location.isSome)) ∧
    updateTodo (.changes { title := some ("x"), completed := none,
                           image := none, location := none }) =
      [("title", Json.str ("x"))] ∧
    updateTodo (.changes { title := none, completed := none,
                           image := some none, location := none }) =
      [("image", Json.null)] := by
  refine ⟨?_, rfl, rfl⟩
  obtain ⟨t, c, i, l⟩ := d
  cases t <;> cases c <;> cases l <;>
    obtain _ | (_ | s) := i <;>
      simp [updateTodo, payloadKeys]

/-- C7: for every valid create input, the createTodo payload carries the
trimmed title; the location key is present iff a location was supplied, and
then holds exactly latitude and longitude (any timestamp is dropped); the
image key is present iff the photo reference is a non-empty string, and
then holds it; and the spec example `title = "  Buy milk  "` with no photo
and no location yields exactly the body `\x7b title: "Buy milk" \x7d`. -/
theorem createTodo_payload_shape (d : NewTaskData) (t : String)
    (ht : d.title = some t) (hv : jsTrim t ≠ "") :
    (∃ p, createTodo d = .ok p ∧
      List.lookup ("title") p = some (Json.str (jsTrim t)) ∧
      ("location" ∈ payloadKeys p ↔ d.location.isSome) ∧
      (∀ l, d.location = some l →
        List.lookup ("location") p =
          some (Json.obj [("latitude", Json.num l.latitude),
                          ("longitude", Json.num l.longitude)])) ∧
      ("image" ∈ payloadKeys p ↔ ∃ s, d.photoUri = some s ∧ s ≠ "") ∧
      (∀ s, d.photoUri = some s → s ≠ "" →
        List.lookup ("image") p = some (Json.str s))) ∧
    createTodo { title := some ("  Buy milk  "), location := none,
                 photoUri := none } =
      .ok [("title", Json.str ("Buy milk"))] := by
  refine ⟨?_, rfl⟩
  obtain ⟨t0, l, p⟩ := d
  cases ht
  cases l with
  | none =>
    cases p with
    | none =>
      have hcr : createTodo { title := some t, location := none, photoUri := none } =
          .ok [("title", Json.str (jsTrim t))] := by
        simp [createTodo, hv]
      exact ⟨_, hcr, rfl, by simp [payloadKeys], by simp, by simp [payloadKeys], by simp⟩
    | some s =>
      by_cases hs : s = ""
      · subst hs
        have hcr : createTodo { title := some t, location := none, photoUri := some "" } =
            .ok [("title", Json.str (jsTrim t))] := by
          simp [createTodo, hv]
        refine ⟨_, hcr, rfl, by simp [payloadKeys], by simp, by simp [payloadKeys], ?_⟩
        intro s hps hne
        cases hps
        exact absurd rfl hne
      · have hcr : createTodo { title := some t, location := none, photoUri := some s } =
            .ok [("title", Json.str (jsTrim t)), ("image", Json.str s)] := by
          simp [createTodo, hv, hs]
        refine ⟨_, hcr, rfl, by simp [payloadKeys], by simp, ?_, ?_⟩
        · simp [payloadKeys, hs]
        · intro s2 hps hne
          cases hps
          rfl
  | some lv =>
    cases p with
    | none =>
      have hcr : createTodo { title := some t, location := some lv, photoUri := none } =
          .ok [("title", Json.str (jsTrim t)), ("location", locationPayload lv)] := by
        simp [createTodo, hv]
      refine ⟨_, hcr, rfl, by simp [payloadKeys], ?_, by simp [payloadKeys], by simp⟩
      intro l2 hl
      cases hl
      rfl
    | some s =>
      by_cases hs : s = ""
      · subst hs
        have hcr : createTodo { title := some t, location := some lv, photoUri := some "" } =
            .ok [("title", Json.str (jsTrim t)), ("location", locationPayload lv)] := by
          simp [createTodo, hv]
        refine ⟨_, hcr, rfl, by simp [payloadKeys], ?_, by simp [payloadKeys], ?_⟩
        · intro l2 hl
          cases hl
          rfl
        · intro s2 hps hne
          cases hps
          exact absurd rfl hne
      · have hcr : createTodo { title := some t, location := some lv, photoUri := some s } =
            .ok [("title", Json.str (jsTrim t)), ("location", locationPayload lv),
                 ("image", Json.str s)] := by
          simp [createTodo, hv, hs]
        refine ⟨_, hcr, rfl, by simp [payloadKeys], ?_, by simp [payloadKeys, hs], ?_⟩
        · intro l2 hl
          cases hl
          rfl
        · intro s2 hps hne
          cases hps
          rfl

/-- C7 witness: the spec example, with the hypotheses discharged at the
concrete input. -/
theorem createTodo_payload_shape_witness :
    ∃ p, createTodo { title := some ("  Buy milk  "), location := none,
                      photoUri := none } = .ok p ∧
      List.lookup ("title") p = some (Json.str (jsTrim ("  Buy milk  "))) := by
  obtain ⟨⟨p, hp, hl, _⟩, _⟩ :=
    createTodo_payload_shape
      { title := some ("  Buy milk  "), location := none, photoUri := none }
      ("  Buy milk  ") rfl (by decide)
  exact ⟨p, hp, hl⟩

/-- C9: the optimistic state handleToggle sets before the update call
resolves flips exactly the targeted entries (same ids, only the completed
flag of the matching tasks changes, everything else untouched), the state
kept on success is that optimistic state, and on failure the final state is
exactly the snapshot taken before the call. -/
theorem handleToggle_optimistic_and_rollback
    (tasks : List TaskItem) (tid : String) (cur : Bool) :
    (handleToggle tasks tid cur false).final = tasks ∧
    (handleToggle tasks tid cur false).before = tasks ∧
    (handleToggle tasks tid cur true).final =
      (handleToggle tasks tid cur true).optimistic ∧
    ((handleToggle tasks tid cur false).optimistic).length = tasks.length ∧
    (∀ (i : Nat) (h : i < tasks.length)
        (h2 : i < ((handleToggle tasks tid cur false).optimistic).length),
      ((handleToggle tasks tid cur false).optimistic).get ⟨i, h2⟩ =
        (if (tasks.get ⟨i, h⟩).id = tid
          then { tasks.get ⟨i, h⟩ with completed := !cur }
          else tasks.get ⟨i, h⟩)) := by
  refine ⟨rfl, rfl, rfl, by simp [handleToggle], ?_⟩
  intro i h h2
  simp [handleToggle, List.get_eq_getElem, List.getElem_map]

/-- C9 witness: a two-task list where the second task is toggled; the
failure path restores the snapshot and the optimistic state flips exactly
the second task. -/
theorem handleToggle_optimistic_and_rollback_witness :
    (handleToggle
        [{ id := "1", title := "a", completed := false, image := none },
         { id := "2", title := "b", completed := true, image := none }]
        ("2") true false).final =
      [{ id := "1", title := "a", completed := false, image := none },
       { id := "2", title := "b", completed := true, image := none }] ∧
    ((handleToggle
        [{ id := "1", title := "a", completed := false, image := none },
         { id := "2", title := "b", completed := true, image := none }]
        ("2") true false).optimistic).get ⟨1, by decide⟩ =
      { id := "2", title := "b", completed := false, image := none } := by
  have h := handleToggle_optimistic_and_rollback
      [{ id := "1", title := "a", completed := false, image := none },
       { id := "2", title := "b", completed := true, image := none }]
      ("2") true
  refine ⟨h.1, ?_⟩
  have h5 := h.2.2.2.2 1 (by decide) (by decide)
  simpa using h5

/-- Helper: the converted error value is nonempty whenever it is truthy. -/
theorem rawErrorText_ne_empty (v : Json) (ht : v.truthy = true) :
    rawErrorText v ≠ "" := by
  cases v with
  | null => simp [Json.truthy] at ht
  | bool b =>
    simp [Json.truthy] at ht
    subst ht
    simp [rawErrorText]
  | num n => exact int_repr_ne_empty n
  | str s => simpa [Json.truthy] using ht
  | arr xs => exact stringify_arr_ne_empty xs
  | obj gs => exact stringify_obj_ne_empty gs

/-- C1 (amended): for every non-2xx response whose body parses to a JSON
object on which `message || error` selects a truthy value v (message first,
error when message is absent or falsy), handleResponse throws exactly
rawErrorText v: the JSON-stringified form when v is an object or array, the
String() form otherwise. The unamended claim — every present message/error
field is used — fails for falsy field values (see the counterexample). -/
theorem handleResponse_truthy_message_or_error_field
    (r : Response) (fs : List (String × Json)) (v : Json)
    (hok : r.ok = false)
    (hb : r.bodyJson = some (.obj fs))
    (hv : jsOr (Json.getField (.obj fs) ("message"))
            (Json.getField (.obj fs) ("error")) = some v)
    (ht : v.truthy = true) :
    handleResponse r = .error (rawErrorText v) := by
  have he : errorTextOf r = rawErrorText v := by
    simp only [errorTextOf, hb, hv, ht, if_true]
  have hmsg : thrownMessage r = rawErrorText v := by
    simp only [thrownMessage, he]
    rw [if_neg (rawErrorText_ne_empty v ht)]
  simp only [handleResponse, hok, Bool.false_eq_true, if_false, hmsg]

/-- C1 witness: an object-valued error field is stringified; here the
message field is absent, so the error field is selected. -/
theorem handleResponse_truthy_message_or_error_field_witness :
    handleResponse { status := 422, statusText := "Unprocessable Entity",
                     bodyText := "\x7b\"error\":\x7b\"title\":\"Required\"\x7d\x7d",
                     bodyJson := some (.obj [("error",
                       .obj [("title", .str ("Required"))])]) } =
      .error ("\x7b\"title\":\"Required\"\x7d") := by
  have h := handleResponse_truthy_message_or_error_field
      { status := 422, statusText := "Unprocessable Entity",
        bodyText := "\x7b\"error\":\x7b\"title\":\"Required\"\x7d\x7d",
        bodyJson := some (.obj [("error", .obj [("title", .str ("Required"))])]) }
      [("error", .obj [("title", .str ("Required"))])]
      (.obj [("title", .str ("Required"))])
      rfl rfl rfl rfl
  exact h

/-- C1 counterexample: the body parses as JSON and contains a message
field, whose string value is the empty string; the claim says that value is
thrown, but handleResponse throws the raw body text instead, because the
empty string is falsy for `jsonError.message || jsonError.error`. -/
theorem handleResponse_message_field_falsy_counterexample :
    handleResponse { status := 400, statusText := "Bad Request",
                     bodyText := "\x7b\"message\":\"\"\x7d",
                     bodyJson := some (.obj [("message", .str (""))]) } =
      .error ("\x7b\"message\":\"\"\x7d") ∧
    ("\x7b\"message\":\"\"\x7d" : String) ≠ "" := by
  exact ⟨rfl, by decide⟩

/-- C6 (amended): an envelope `\x7b data: ts \x7d` and a bare array ts decode
to the same task list ts; every other non-null 2xx JSON shape yields the
empty list without throwing; errors propagate on non-2xx failure — and
also, departing from the unamended claim, on a 2xx body of JSON null,
where the `json.data` read throws (see the counterexample). -/
theorem getTodos_envelope_and_bare_array_decode
    (ts : List Json) (stx bodyA bodyB : String) :
    getTodos { status := 200, statusText := stx, bodyText := bodyA,
               bodyJson := some (.obj [("data", .arr ts)]) } = .ok ts ∧
    getTodos { status := 200, statusText := stx, bodyText := bodyB,
               bodyJson := some (.arr ts) } = .ok ts ∧
    (∀ j : Json, j ≠ .null →
      (∀ xs, Json.getField j ("data") ≠ some (.arr xs)) →
      (∀ xs, j ≠ .arr xs) →
      getTodosDecode (some j) = .ok []) ∧
    (∀ r : Response, r.ok = false → getTodos r = .error (thrownMessage r)) := by
  refine ⟨rfl, rfl, ?_, ?_⟩
  · intro j hnull hdata harr
    cases j with
    | null => exact absurd rfl hnull
    | arr xs => exact absurd rfl (harr xs)
    | bool b => simp [getTodosDecode, Json.getField]
    | num n => simp [getTodosDecode, Json.getField]
    | str s => simp [getTodosDecode, Json.getField]
    | obj fs =>
      rcases hl : Json.getField (.obj fs) ("data") with _ | v
      · simp [getTodosDecode, hl]
      · cases v with
        | arr xs => exact absurd hl (hdata xs)
        | null => simp [getTodosDecode, hl]
        | bool b => simp [getTodosDecode, hl]
        | num n => simp [getTodosDecode, hl]
        | str s => simp [getTodosDecode, hl]
        | obj gs => simp [getTodosDecode, hl]
  · intro r hok
    simp [getTodos, handleResponse, hok, Bool.false_eq_true, Except.bind]

/-- C6 witness: both response shapes for a one-element list, and an
envelope without a data array decoding to the empty list. -/
theorem getTodos_envelope_and_bare_array_decode_witness :
    getTodos { status := 200, statusText := "OK",
               bodyText := "\x7b\"data\":[true]\x7d",
               bodyJson := some (.obj [("data", .arr [.bool true])]) } =
      .ok [.bool true] ∧
    getTodos { status := 200, statusText := "OK", bodyText := "[true]",
               bodyJson := some (.arr [.bool true]) } = .ok [.bool true] ∧
    getTodosDecode (some (.obj [("success", .bool true)])) = .ok [] := by
  have h := getTodos_envelope_and_bare_array_decode [.bool true] ("OK")
      ("\x7b\"data\":[true]\x7d") ("[true]")
  refine ⟨h.1, h.2.1, ?_⟩
  exact h.2.2.1 (.obj [("success", .bool true)])
    (fun hc => Json.noConfusion hc)
    (fun xs hc => Option.noConfusion hc)
    (fun xs hc => Json.noConfusion hc)

/-- C6 counterexample: a 2xx response whose body is JSON null is a shape
other than the envelope and the bare array, so the claim requires the
empty list without a throw; getTodos instead rejects, because the code
reads .data of null. -/
theorem getTodos_null_body_counterexample :
    getTodos { status := 200, statusText := "OK", bodyText := "null",
               bodyJson := some Json.null } =
      .error ("TypeError: Cannot read properties of null") := by
  rfl

/-- C8 (amended): the status fallback fires exactly when no text at all is
available: a non-2xx response with an empty body (hence an unparseable
one) throws "Error <status>: <status text>" — note the Error prefix the
unamended claim lacks; when JSON extraction finds no message/error field
in a nonempty body, the raw body text is thrown instead of the fallback. -/
theorem handleResponse_empty_body_fallback (r : Response) (hok : r.ok = false) :
    (r.bodyText = "" → r.bodyJson = none →
      handleResponse r = .error (s!"Error {r.status}: {r.statusText}")) ∧
    (∀ fs, r.bodyJson = some (.obj fs) →
      List.lookup ("message") fs = none → List.lookup ("error") fs = none →
      r.bodyText ≠ "" →
      handleResponse r = .error (r.bodyText)) := by
  constructor
  · intro hbt hbj
    have he : errorTextOf r = "" := by
      simp only [errorTextOf, hbj, hbt]
      simp [show containsDoctypeMarker "" = false from by decide]
    have hmsg : thrownMessage r = s!"Error {r.status}: {r.statusText}" := by
      simp only [thrownMessage, he, if_pos]
    simp only [handleResponse, hok, Bool.false_eq_true, if_false, hmsg]
  · intro fs hbj hm he2 hne
    have he : errorTextOf r = r.bodyText := by
      simp only [errorTextOf, hbj, Json.getField, hm, he2, jsOr]
    have hmsg : thrownMessage r = r.bodyText := by
      simp only [thrownMessage, he]
      rw [if_neg hne]
    simp only [handleResponse, hok, Bool.false_eq_true, if_false, hmsg]

/-- C8 witness: a concrete empty-body failure hits the status fallback. -/
theorem handleResponse_empty_body_fallback_witness :
    handleResponse { status := 503, statusText := "Service Unavailable",
                     bodyText := "", bodyJson := none } =
      .error ("Error 503: Service Unavailable") :=
  (handleResponse_empty_body_fallback
    { status := 503, statusText := "Service Unavailable",
      bodyText := "", bodyJson := none } rfl).1 rfl rfl

/-- C8 counterexample: first, on an empty body the thrown message carries
the Error prefix, so it differs from the claimed "<status>: <status
text>"; second, a nonempty JSON body from which extraction yields nothing
throws the raw body text, not the claimed status string. -/
theorem handleResponse_fallback_counterexample :
    (handleResponse { status := 500, statusText := "Internal Server Error",
                      bodyText := "", bodyJson := none } =
        .error ("Error 500: Internal Server Error") ∧
      ("Error 500: Internal Server Error" : String) ≠ "500: Internal Server Error") ∧
    (handleResponse { status := 400, statusText := "Bad Request",
                      bodyText := "\x7b\"a\":1\x7d",
                      bodyJson := some (.obj [("a", .num 1)]) } =
        .error ("\x7b\"a\":1\x7d") ∧
      ("\x7b\"a\":1\x7d" : String) ≠ "400: Bad Request") := by
  exact ⟨⟨rfl, by decide⟩, ⟨rfl, by decide⟩⟩
